import Mathlib

/-!
Verification of `src/go/util/util.go` (package `util`).

A shallow embedding of the constants, of `MaybeTruncateSpanName` and of the
service-control skip list of the Go package `util`, followed by theorems
about them.

Modelling conventions:

* A Go `string` is an immutable byte sequence: `GoString := List UInt8`.
  `len(s)` is `s.length` (a Go `int`, embedded in `Int`), `a + b` is `a ++ b`.
* A Go string literal denotes the UTF-8 encoding of its source text
  (`GoString.lit`).
* A slice expression `s[:hi]` panics at run time unless `0 ≤ hi ≤ len(s)`;
  it is modelled by `GoString.sliceTo`, which returns `none` for the panic.
  Functions that contain a slice expression therefore return `Option`.
* Untyped Go constants are exact integers (`Int`); typed `int64` constants
  must be representable in 64-bit two's complement (`fitsInt64`).
-/

/-- A Go string: a finite sequence of bytes. -/
abbrev GoString := List UInt8

namespace GoString

/-- The bytes denoted by a Go string literal: the UTF-8 encoding of its text. -/
def lit (s : String) : GoString :=
  s.data.flatMap String.utf8EncodeChar

/-- The Go slice expression `s[:hi]`: `none` stands for the run-time panic
"slice bounds out of range", raised unless `0 ≤ hi ≤ len(s)`. -/
def sliceTo (s : GoString) (hi : Int) : Option GoString :=
  if 0 ≤ hi ∧ hi ≤ (s.length : Int) then some (s.take hi.toNat) else none

end GoString

/-- The least value of a Go `int64`. -/
def minInt64 : Int := -(2 ^ 63)

/-- The greatest value of a Go `int64`. -/
def maxInt64 : Int := 2 ^ 63 - 1

/-- Whether an exact integer is representable as a Go `int64`; a typed constant
expression whose value is not is rejected by the compiler ("constant overflows"). -/
def fitsInt64 (x : Int) : Bool :=
  decide (minInt64 ≤ x ∧ x ≤ maxInt64)

/-- Two's-complement wrap-around of an exact integer into the `int64` range:
what 64-bit signed machine arithmetic yields for the exact result `x`. -/
def wrapInt64 (x : Int) : Int :=
  (x + 2 ^ 63) % 2 ^ 64 - 2 ^ 63

/-- Whether an exact integer is representable as a Go `int32`. -/
def fitsInt32 (x : Int) : Bool :=
  decide (-(2 ^ 31) ≤ x ∧ x ≤ 2 ^ 31 - 1)

/-- Go's `iota` inside a parenthesised `const` declaration: the index of the
constant specification it occurs in, counted from zero. A specification
without an expression repeats the type and expression of the previous one. -/
def iota (specIndex : Nat) : Int := (specIndex : Int)

namespace utf8

/-- A UTF-8 continuation byte, `0x80 ..= 0xBF`. -/
def isCont (b : UInt8) : Bool :=
  decide (0x80 ≤ b) && decide (b ≤ 0xBF)

/-- The range allowed for the second byte of a multi-byte sequence with lead
byte `b0` (Unicode Standard, Table 3-7; the `acceptRanges` of Go's package
`unicode/utf8`): it excludes overlong forms, surrogates and code points above
`U+10FFFF`. -/
def secondOk (b0 b1 : UInt8) : Bool :=
  if b0 = 0xE0 then decide (0xA0 ≤ b1) && decide (b1 ≤ 0xBF)
  else if b0 = 0xED then decide (0x80 ≤ b1) && decide (b1 ≤ 0x9F)
  else if b0 = 0xF0 then decide (0x90 ≤ b1) && decide (b1 ≤ 0xBF)
  else if b0 = 0xF4 then decide (0x80 ≤ b1) && decide (b1 ≤ 0x8F)
  else isCont b1

/-- Well-formed UTF-8, as decided by Go's `utf8.ValidString` (standard library,
not part of the repository): the string is a concatenation of well-formed
byte sequences of the Unicode Standard's Table 3-7, namely one byte
`00..7F`, or a lead byte `C2..DF`, `E0..EF`, `F0..F4` followed by one, two,
three bytes, the first of them in the range of `secondOk` and the others
continuation bytes. -/
def ValidString : GoString → Bool
  | [] => true
  | b0 :: rest =>
    if b0 ≤ 0x7F then
      ValidString rest
    else if 0xC2 ≤ b0 ∧ b0 ≤ 0xDF then
      match rest with
      | b1 :: rest1 => isCont b1 && ValidString rest1
      | _ => false
    else if 0xE0 ≤ b0 ∧ b0 ≤ 0xEF then
      match rest with
      | b1 :: b2 :: rest2 => secondOk b0 b1 && isCont b2 && ValidString rest2
      | _ => false
    else if 0xF0 ≤ b0 ∧ b0 ≤ 0xF4 then
      match rest with
      | b1 :: b2 :: b3 :: rest3 =>
        secondOk b0 b1 && isCont b2 && isCont b3 && ValidString rest3
      | _ => false
    else
      false

end utf8

namespace time

/-- Modelled from the spec: the unit constants of Go's standard package `time`,
which the source imports but which are not part of the repository. A
`Duration` is an `int64` count of nanoseconds; the units are declared there as
`Nanosecond Duration = 1`, `Microsecond = 1000 * Nanosecond`,
`Millisecond = 1000 * Microsecond`, `Second = 1000 * Millisecond`,
`Minute = 60 * Second`, so that the specification's "request timeout 15s, idle
timeout 5m" are `15 * time.Second` and `5 * time.Minute`. -/
abbrev Duration := Int

/-- Go: `Nanosecond Duration = 1`. -/
def Nanosecond : Duration := 1

/-- Go: `Microsecond = 1000 * Nanosecond`. -/
def Microsecond : Duration := 1000 * Nanosecond

/-- Go: `Millisecond = 1000 * Microsecond`. -/
def Millisecond : Duration := 1000 * Microsecond

/-- Go: `Second = 1000 * Millisecond`. -/
def Second : Duration := 1000 * Millisecond

/-- Go: `Minute = 60 * Second`. -/
def Minute : Duration := 60 * Second

end time

namespace util

/-- Source: `FixedRolloutStrategy = "fixed"`. -/
def FixedRolloutStrategy : GoString := GoString.lit "fixed"

/-- Source: `ManagedRolloutStrategy = "managed"`. -/
def ManagedRolloutStrategy : GoString := GoString.lit "managed"

/-- Source: `ConfigIDPath`. -/
def ConfigIDPath : GoString :=
  GoString.lit "/computeMetadata/v1/instance/attributes/endpoints-service-version"

/-- Source: `GAEServerSoftwarePath`. -/
def GAEServerSoftwarePath : GoString :=
  GoString.lit "/computeMetadata/v1/instance/attributes/gae_server_software"

/-- Source: `KubeEnvPath`. -/
def KubeEnvPath : GoString :=
  GoString.lit "/computeMetadata/v1/instance/attributes/kube-env"

/-- Source: `RolloutStrategyPath`. -/
def RolloutStrategyPath : GoString :=
  GoString.lit "/computeMetadata/v1/instance/attributes/endpoints-rollout-strategy"

/-- Source: `ServiceNamePath`. -/
def ServiceNamePath : GoString :=
  GoString.lit "/computeMetadata/v1/instance/attributes/endpoints-service-name"

/-- Source: `AccessTokenPath`. -/
def AccessTokenPath : GoString :=
  GoString.lit "/computeMetadata/v1/instance/service-accounts/default/token"

/-- Source: `IdentityTokenPath`. -/
def IdentityTokenPath : GoString :=
  GoString.lit "/computeMetadata/v1/instance/service-accounts/default/identity"

/-- Source: `ProjectIDPath`. -/
def ProjectIDPath : GoString :=
  GoString.lit "/computeMetadata/v1/project/project-id"

/-- Source: `RegionPath`; Cloud Run platform is regional. -/
def RegionPath : GoString :=
  GoString.lit "/computeMetadata/v1/instance/region"

/-- Source: `ZonePath`; GKE/GCE platforms are zonal. -/
def ZonePath : GoString :=
  GoString.lit "/computeMetadata/v1/instance/zone"

/-- Source: `OpenIDDiscoveryCfgURLSuffix`; "b/147591854: This string must NOT
have a trailing slash". -/
def OpenIDDiscoveryCfgURLSuffix : GoString :=
  GoString.lit "/.well-known/openid-configuration"

/-- Source: `DefaultResponseDeadline = 15 * time.Second`, a typed constant of
type `time.Duration`; Go evaluates the product exactly. -/
def DefaultResponseDeadline : time.Duration := 15 * time.Second

/-- Source: `DefaultIdleTimeout = 5 * time.Minute`. -/
def DefaultIdleTimeout : time.Duration := 5 * time.Minute

/-- Source: `type BackendProtocol int32`. A value of the type is any `int32`;
it is embedded as an exact integer, with `fitsInt32` for the range. -/
abbrev BackendProtocol := Int

/-- Source: `UNKNOWN BackendProtocol = iota`, first specification of the block
```go
const (
	UNKNOWN BackendProtocol = iota
	HTTP1
	HTTP2
	GRPC
)
```
-/
def UNKNOWN : BackendProtocol := iota 0

/-- Source: `HTTP1`, second specification of the block (implicitly `= iota`). -/
def HTTP1 : BackendProtocol := iota 1

/-- Source: `HTTP2`, third specification of the block (implicitly `= iota`). -/
def HTTP2 : BackendProtocol := iota 2

/-- Source: `GRPC`, fourth specification of the block (implicitly `= iota`). -/
def GRPC : BackendProtocol := iota 3

/-- The constants of type `BackendProtocol` declared in the source, in
declaration order. -/
def BackendProtocol.declared : List BackendProtocol :=
  [UNKNOWN, HTTP1, HTTP2, GRPC]

/-- The zero value of `BackendProtocol`, as of every Go integer type. -/
def BackendProtocol.zeroValue : BackendProtocol := 0

/-- Source: `SpanNameMaxByteNum = 128`, the maximum byte number of a span name. -/
def SpanNameMaxByteNum : Int := 128

/-- Source:
```go
func MaybeTruncateSpanName(spanName string) string {
	if len(spanName) <= SpanNameMaxByteNum {
		return spanName
	}
	newSpanName := spanName[:SpanNameMaxByteNum-3] + "..."
	return newSpanName
}
```
The result is `none` exactly when the slice expression would panic. -/
def MaybeTruncateSpanName (spanName : GoString) : Option GoString :=
  if (spanName.length : Int) ≤ SpanNameMaxByteNum then
    some spanName
  else
    match GoString.sliceTo spanName (SpanNameMaxByteNum - 3) with
    | none => none
    | some head => some (head ++ GoString.lit "...")

/-- Source:
```go
var HardCodedSkipServiceControlMethods = []string{
	"grpc.health.v1.Health.Check",
	"grpc.health.v1.Health.Watch",
}
```
-/
def HardCodedSkipServiceControlMethods : List GoString :=
  [ GoString.lit "grpc.health.v1.Health.Check",
    GoString.lit "grpc.health.v1.Health.Watch" ]

/-- The rollout strategies of the specification's data model:
"RolloutStrategy: enum {Fixed, Managed}". -/
inductive RolloutStrategy where
  | Fixed
  | Managed
  deriving DecidableEq, Repr

/-- The error taxonomy of the specification (section 7). -/
inductive CoreError where
  | NotFound
  | Transient
  | Timeout
  | InvalidStrategy
  | CredentialExpired
  | SwitchFailed
  deriving DecidableEq, Repr

/-- Modelled from the spec: the startup validation of the rollout-strategy
value, which is not among the source files (only the two constants
`FixedRolloutStrategy` and `ManagedRolloutStrategy` are). The specification
says: "Rollout strategy values recognized: `fixed`, `managed`; any other value
is treated as invalid and must be rejected at startup rather than silently
defaulted", with the error "`InvalidStrategy` (unrecognized rollout-strategy
value — fatal at startup)". -/
def parseRolloutStrategy (value : GoString) : Except CoreError RolloutStrategy :=
  if value = FixedRolloutStrategy then
    Except.ok RolloutStrategy.Fixed
  else if value = ManagedRolloutStrategy then
    Except.ok RolloutStrategy.Managed
  else
    Except.error CoreError.InvalidStrategy

/-- A well-formed name of 65 two-byte characters (130 bytes of UTF-8). -/
def twoByteName : String := String.mk (List.replicate 65 'é')

/-- An ASCII name of 128 one-byte characters (128 bytes of UTF-8). -/
def asciiName : String := String.mk (List.replicate 128 'a')

end util

/-! ## Auxiliary lemmas -/

namespace GoString

/-- The literal `"..."` is three full-stop bytes. -/
theorem lit_dots : lit "..." = [46, 46, 46] := by decide

/-- A slice `s[:n]` with `n ≤ len(s)` does not panic and yields the first `n` bytes. -/
theorem sliceTo_natCast (s : GoString) (n : Nat) (h : n ≤ s.length) :
    sliceTo s (n : Int) = some (s.take n) := by
  unfold sliceTo
  have h1 : (0 : Int) ≤ (n : Int) ∧ (n : Int) ≤ (s.length : Int) := by
    constructor <;> omega
  rw [if_pos h1]
  simp

/-- A slice `s[:hi]` returns a value exactly when `0 ≤ hi ≤ len(s)`. -/
theorem sliceTo_isSome_iff (s : GoString) (hi : Int) :
    (sliceTo s hi).isSome = true ↔ 0 ≤ hi ∧ hi ≤ (s.length : Int) := by
  unfold sliceTo
  by_cases h : 0 ≤ hi ∧ hi ≤ (s.length : Int)
  · simp [h]
  · simp [h]

end GoString

namespace util

/-- The first branch of `MaybeTruncateSpanName`: a name within the limit. -/
theorem MaybeTruncateSpanName_of_le (s : GoString) (h : s.length ≤ 128) :
    MaybeTruncateSpanName s = some s := by
  unfold MaybeTruncateSpanName SpanNameMaxByteNum
  have h1 : (s.length : Int) ≤ 128 := by omega
  rw [if_pos h1]

/-- The second branch of `MaybeTruncateSpanName`: a name over the limit. -/
theorem MaybeTruncateSpanName_of_gt (s : GoString) (h : 128 < s.length) :
    MaybeTruncateSpanName s = some (s.take 125 ++ [46, 46, 46]) := by
  unfold MaybeTruncateSpanName SpanNameMaxByteNum
  have h1 : ¬ ((s.length : Int) ≤ 128) := by omega
  rw [if_neg h1]
  have h2 : ((128 : Int) - 3) = ((125 : Nat) : Int) := by norm_num
  rw [h2, GoString.sliceTo_natCast s 125 (by omega), GoString.lit_dots]

/-- The length of a truncated name. -/
theorem length_take_append_dots (s : GoString) (h : 128 < s.length) :
    (s.take 125 ++ [46, 46, 46]).length = 128 := by
  rw [List.length_append, List.length_take]
  simp
  omega

set_option maxRecDepth 100000 in
/-- The name `twoByteName` has 65 characters and 130 bytes. -/
theorem twoByteName_sizes :
    twoByteName.length = 65 ∧ (GoString.lit twoByteName).length = 130 := by
  constructor <;> decide

set_option maxRecDepth 100000 in
/-- The name `asciiName` has 128 characters and 128 bytes. -/
theorem asciiName_sizes :
    asciiName.length = 128 ∧ (GoString.lit asciiName).length = 128 := by
  constructor <;> decide

/-! ## Span-name truncation -/

/-- Claim C1: for every string `s`, `MaybeTruncateSpanName s` returns a string
whose byte length is at most `SpanNameMaxByteNum`, which is 128. -/
theorem MaybeTruncateSpanName_length_le (s : GoString) :
    ∃ r, MaybeTruncateSpanName s = some r ∧
      (r.length : Int) ≤ SpanNameMaxByteNum ∧ r.length ≤ 128 ∧
      SpanNameMaxByteNum = 128 := by
  by_cases h : s.length ≤ 128
  · refine ⟨s, MaybeTruncateSpanName_of_le s h, ?_, h, rfl⟩
    unfold SpanNameMaxByteNum
    omega
  · have hgt : 128 < s.length := by omega
    have hl := length_take_append_dots s hgt
    refine ⟨_, MaybeTruncateSpanName_of_gt s hgt, ?_, ?_, rfl⟩
    · unfold SpanNameMaxByteNum
      omega
    · omega

/-- Claim C2: every string of at most 128 bytes (the empty string and strings
of exactly 128 bytes included) is returned unchanged by `MaybeTruncateSpanName`. -/
theorem MaybeTruncateSpanName_short_unchanged (s : GoString)
    (h : s.length ≤ 128) : MaybeTruncateSpanName s = some s :=
  MaybeTruncateSpanName_of_le s h

/-- Witness of C2 at the empty string and at a string of exactly 128 bytes. -/
theorem MaybeTruncateSpanName_short_unchanged_witness :
    (([] : GoString).length ≤ 128 ∧
      MaybeTruncateSpanName [] = some []) ∧
    ((List.replicate 128 (97 : UInt8)).length ≤ 128 ∧
      (List.replicate 128 (97 : UInt8)).length = 128 ∧
      MaybeTruncateSpanName (List.replicate 128 97) = some (List.replicate 128 97)) :=
  ⟨⟨by simp, MaybeTruncateSpanName_short_unchanged [] (by simp)⟩,
   ⟨by simp, by simp,
    MaybeTruncateSpanName_short_unchanged (List.replicate 128 97) (by simp)⟩⟩

/-- Claim C3: for every string of more than 128 bytes, `MaybeTruncateSpanName`
returns its first 125 (= limit − 3) bytes followed by the three bytes `"..."`. -/
theorem MaybeTruncateSpanName_long_eq (s : GoString) (h : 128 < s.length) :
    MaybeTruncateSpanName s = some (s.take 125 ++ GoString.lit "...") ∧
      (s.take 125).length = 125 ∧
      ((125 : Nat) : Int) = SpanNameMaxByteNum - 3 ∧
      GoString.lit "..." = [46, 46, 46] := by
  refine ⟨?_, ?_, ?_, GoString.lit_dots⟩
  · rw [GoString.lit_dots]
    exact MaybeTruncateSpanName_of_gt s h
  · rw [List.length_take]
    omega
  · unfold SpanNameMaxByteNum
    norm_num

/-- Witness of C3 at a string of 129 bytes. -/
theorem MaybeTruncateSpanName_long_eq_witness :
    128 < (List.replicate 129 (97 : UInt8)).length ∧
    (MaybeTruncateSpanName (List.replicate 129 97) =
        some ((List.replicate 129 (97 : UInt8)).take 125 ++ GoString.lit "...") ∧
      ((List.replicate 129 (97 : UInt8)).take 125).length = 125 ∧
      ((125 : Nat) : Int) = SpanNameMaxByteNum - 3 ∧
      GoString.lit "..." = [46, 46, 46]) :=
  ⟨by simp, MaybeTruncateSpanName_long_eq (List.replicate 129 97) (by simp)⟩

/-- Claim C4: for every string of more than 128 bytes, the result of
`MaybeTruncateSpanName` ends with `"..."` and has byte length exactly 128. -/
theorem MaybeTruncateSpanName_long_suffix_length (s : GoString)
    (h : 128 < s.length) :
    ∃ r, MaybeTruncateSpanName s = some r ∧
      GoString.lit "..." <:+ r ∧ r.length = 128 := by
  refine ⟨_, MaybeTruncateSpanName_of_gt s h, ?_, length_take_append_dots s h⟩
  rw [GoString.lit_dots]
  exact List.suffix_append _ _

/-- Witness of C4 at a string of 200 bytes. -/
theorem MaybeTruncateSpanName_long_suffix_length_witness :
    128 < (List.replicate 200 (120 : UInt8)).length ∧
    ∃ r, MaybeTruncateSpanName (List.replicate 200 120) = some r ∧
      GoString.lit "..." <:+ r ∧ r.length = 128 :=
  ⟨by rw [List.length_replicate]; decide,
   MaybeTruncateSpanName_long_suffix_length (List.replicate 200 120)
     (by rw [List.length_replicate]; decide)⟩

/-- Claim C5: `MaybeTruncateSpanName` decides on byte length, not character
count. For every argument a result is returned, and it differs from the
argument exactly when the argument has more than 128 bytes: within 128 bytes
the result is the argument itself, whatever its character count, and above 128
bytes it is the truncation, the first 125 bytes followed by `"..."`, which is
shorter than the argument. So `twoByteName`, of 65 characters (fewer than 128,
and fewer than the 128 characters of the kept `asciiName`) but 130 bytes, is
truncated to 128 bytes. -/
theorem MaybeTruncateSpanName_changes_iff_bytes :
    (∀ s : GoString, ∃ r, MaybeTruncateSpanName s = some r ∧
      (r ≠ s ↔ 128 < s.length) ∧
      (s.length ≤ 128 → r = s) ∧
      (128 < s.length →
        r = s.take 125 ++ GoString.lit "..." ∧ r.length = 128 ∧
        r.length < s.length ∧ r.take 125 = s.take 125)) ∧
    (∀ s : GoString, MaybeTruncateSpanName s ≠ some s ↔ 128 < s.length) ∧
    (∀ t : String, (GoString.lit t).length ≤ 128 →
      MaybeTruncateSpanName (GoString.lit t) = some (GoString.lit t)) ∧
    (twoByteName.length = 65 ∧ twoByteName.length < 128 ∧
      (GoString.lit twoByteName).length = 130 ∧
      MaybeTruncateSpanName (GoString.lit twoByteName) ≠
        some (GoString.lit twoByteName) ∧
      ∃ r, MaybeTruncateSpanName (GoString.lit twoByteName) = some r ∧
        r = (GoString.lit twoByteName).take 125 ++ GoString.lit "..." ∧
        r ≠ GoString.lit twoByteName ∧
        r.length = 128 ∧ r.length < (GoString.lit twoByteName).length) ∧
    (asciiName.length = 128 ∧ twoByteName.length < asciiName.length ∧
      (GoString.lit asciiName).length = 128 ∧
      MaybeTruncateSpanName (GoString.lit asciiName) =
        some (GoString.lit asciiName)) := by
  have hne : ∀ s : GoString, 128 < s.length →
      s.take 125 ++ [46, 46, 46] ≠ s := by
    intro s hgt heq
    have hlen := congrArg List.length heq
    rw [length_take_append_dots s hgt] at hlen
    omega
  have full : ∀ s : GoString, ∃ r, MaybeTruncateSpanName s = some r ∧
      (r ≠ s ↔ 128 < s.length) ∧
      (s.length ≤ 128 → r = s) ∧
      (128 < s.length →
        r = s.take 125 ++ GoString.lit "..." ∧ r.length = 128 ∧
        r.length < s.length ∧ r.take 125 = s.take 125) := by
    intro s
    by_cases h : s.length ≤ 128
    · refine ⟨s, MaybeTruncateSpanName_of_le s h, ?_, fun _ => rfl, ?_⟩
      · constructor
        · intro hn
          exact absurd rfl hn
        · intro hgt
          omega
      · intro hgt
        omega
    · have hgt : 128 < s.length := by omega
      have hl := length_take_append_dots s hgt
      refine ⟨_, MaybeTruncateSpanName_of_gt s hgt, ?_, ?_, ?_⟩
      · exact ⟨fun _ => hgt, fun _ => hne s hgt⟩
      · intro hle
        omega
      · intro _
        refine ⟨?_, hl, ?_, ?_⟩
        · rw [GoString.lit_dots]
        · omega
        · have h125 : (s.take 125).length = 125 := by
            rw [List.length_take]
            omega
          rw [List.take_append_of_le_length (le_of_eq h125.symm),
            List.take_take]
          simp
  have key : ∀ s : GoString, MaybeTruncateSpanName s ≠ some s ↔ 128 < s.length := by
    intro s
    constructor
    · intro hn
      by_contra hle
      exact hn (MaybeTruncateSpanName_of_le s (by omega))
    · intro hgt heq
      rw [MaybeTruncateSpanName_of_gt s hgt] at heq
      exact hne s hgt (Option.some.inj heq)
  have h2 := twoByteName_sizes
  have ha := asciiName_sizes
  have h2gt : 128 < (GoString.lit twoByteName).length := by omega
  have hl2 := length_take_append_dots (GoString.lit twoByteName) h2gt
  refine ⟨full, key, fun t ht => MaybeTruncateSpanName_of_le _ ht,
    ⟨h2.1, ?_, h2.2, (key _).mpr h2gt,
      ⟨_, MaybeTruncateSpanName_of_gt _ h2gt, ?_, hne _ h2gt, hl2, ?_⟩⟩,
    ⟨ha.1, ?_, ha.2, MaybeTruncateSpanName_of_le _ (by omega)⟩⟩
  · omega
  · rw [GoString.lit_dots]
  · omega
  · omega

/-! ## Service-control skip list -/

/-- Claim C6: the method name `"grpc.health.v1.Health.Check"` is an element of
`HardCodedSkipServiceControlMethods` and `"my.api.Service.Method"` is not. -/
theorem HardCodedSkipServiceControlMethods_examples :
    GoString.lit "grpc.health.v1.Health.Check" ∈ HardCodedSkipServiceControlMethods ∧
    GoString.lit "my.api.Service.Method" ∉ HardCodedSkipServiceControlMethods := by
  constructor <;> decide

/-- Claim C7: membership in `HardCodedSkipServiceControlMethods` is exact
match against the two health-check methods: a string is an element if and only
if it equals `"grpc.health.v1.Health.Check"` or `"grpc.health.v1.Health.Watch"`.
The proper prefix `"grpc.health.v1.Health"` of the first entry and the case
variant `"grpc.health.v1.health.check"` are not elements, and the list has two
entries without duplicates. -/
theorem HardCodedSkipServiceControlMethods_exact :
    (∀ m : GoString, m ∈ HardCodedSkipServiceControlMethods ↔
      (m = GoString.lit "grpc.health.v1.Health.Check" ∨
       m = GoString.lit "grpc.health.v1.Health.Watch")) ∧
    (GoString.lit "grpc.health.v1.Health" ++ GoString.lit ".Check" =
        GoString.lit "grpc.health.v1.Health.Check" ∧
      GoString.lit "grpc.health.v1.Health" ∉ HardCodedSkipServiceControlMethods) ∧
    GoString.lit "grpc.health.v1.health.check" ∉ HardCodedSkipServiceControlMethods ∧
    HardCodedSkipServiceControlMethods.Nodup ∧
    HardCodedSkipServiceControlMethods.length = 2 := by
  refine ⟨?_, ⟨by decide, by decide⟩, by decide, by decide, rfl⟩
  intro m
  simp [HardCodedSkipServiceControlMethods]

/-! ## Rollout strategy -/

/-- Claim C8: the rollout strategy constants are `FixedRolloutStrategy = "fixed"`
and `ManagedRolloutStrategy = "managed"` (given also byte by byte); they are
distinct, and the value `"unmanaged"` equals neither of them. -/
theorem rolloutStrategy_constants :
    FixedRolloutStrategy = GoString.lit "fixed" ∧
    FixedRolloutStrategy = [0x66, 0x69, 0x78, 0x65, 0x64] ∧
    ManagedRolloutStrategy = GoString.lit "managed" ∧
    ManagedRolloutStrategy = [0x6d, 0x61, 0x6e, 0x61, 0x67, 0x65, 0x64] ∧
    FixedRolloutStrategy ≠ ManagedRolloutStrategy ∧
    GoString.lit "unmanaged" ≠ FixedRolloutStrategy ∧
    GoString.lit "unmanaged" ≠ ManagedRolloutStrategy := by
  refine ⟨rfl, by decide, rfl, by decide, by decide, by decide, by decide⟩

/-- Claim C9: a rollout-strategy value that is neither `"fixed"` nor
`"managed"` is rejected by the startup validation with `InvalidStrategy`, and
no strategy is returned for it (no silent default). -/
theorem parseRolloutStrategy_invalid (value : GoString)
    (hf : value ≠ FixedRolloutStrategy) (hm : value ≠ ManagedRolloutStrategy) :
    parseRolloutStrategy value = Except.error CoreError.InvalidStrategy ∧
    ∀ st : RolloutStrategy, parseRolloutStrategy value ≠ Except.ok st := by
  have h : parseRolloutStrategy value = Except.error CoreError.InvalidStrategy := by
    unfold parseRolloutStrategy
    rw [if_neg hf, if_neg hm]
  refine ⟨h, ?_⟩
  intro st hst
  rw [h] at hst
  cases hst

/-- Witness of C9 at the value `"unmanaged"`. -/
theorem parseRolloutStrategy_invalid_witness :
    GoString.lit "unmanaged" ≠ FixedRolloutStrategy ∧
    GoString.lit "unmanaged" ≠ ManagedRolloutStrategy ∧
    (parseRolloutStrategy (GoString.lit "unmanaged") =
        Except.error CoreError.InvalidStrategy ∧
      ∀ st : RolloutStrategy,
        parseRolloutStrategy (GoString.lit "unmanaged") ≠ Except.ok st) :=
  ⟨by decide, by decide,
   parseRolloutStrategy_invalid (GoString.lit "unmanaged") (by decide) (by decide)⟩

/-! ## Default timings -/

/-- Claim C10: the default timings are 15 seconds and 5 minutes. In nanoseconds
`DefaultResponseDeadline = 15 * 10^9` and `DefaultIdleTimeout = 300 * 10^9`;
every constant on the way (`time.Microsecond` up to `time.Minute`, and the two
products) is representable in an `int64`, so 64-bit signed multiplication gives
the exact products; and the response deadline is strictly below the idle
timeout. -/
theorem default_timings :
    DefaultResponseDeadline = 15 * 10 ^ 9 ∧
    DefaultIdleTimeout = 300 * 10 ^ 9 ∧
    (time.Second = 10 ^ 9 ∧ time.Minute = 60 * time.Second ∧
      DefaultIdleTimeout = 5 * 60 * time.Second) ∧
    (fitsInt64 time.Nanosecond = true ∧ fitsInt64 time.Microsecond = true ∧
      fitsInt64 time.Millisecond = true ∧ fitsInt64 time.Second = true ∧
      fitsInt64 time.Minute = true ∧
      fitsInt64 DefaultResponseDeadline = true ∧
      fitsInt64 DefaultIdleTimeout = true) ∧
    (wrapInt64 (1000 * time.Nanosecond) = time.Microsecond ∧
      wrapInt64 (1000 * time.Microsecond) = time.Millisecond ∧
      wrapInt64 (1000 * time.Millisecond) = time.Second ∧
      wrapInt64 (60 * time.Second) = time.Minute ∧
      wrapInt64 (15 * time.Second) = DefaultResponseDeadline ∧
      wrapInt64 (5 * time.Minute) = DefaultIdleTimeout) ∧
    DefaultResponseDeadline < DefaultIdleTimeout := by
  refine ⟨by decide, by decide, ⟨by decide, rfl, by decide⟩,
    ⟨by decide, by decide, by decide, by decide, by decide, by decide, by decide⟩,
    ⟨by decide, by decide, by decide, by decide, by decide, by decide⟩, by decide⟩

/-! ## Metadata paths and URL suffix -/

set_option maxRecDepth 100000 in
/-- Claim C11: the ten metadata path constants `ProjectIDPath`, `ZonePath`,
`RegionPath`, `ConfigIDPath`, `RolloutStrategyPath`, `ServiceNamePath`,
`KubeEnvPath`, `GAEServerSoftwarePath`, `AccessTokenPath` and
`IdentityTokenPath` are pairwise distinct strings, and each of them begins
with `"/computeMetadata/v1/"` (so with the byte `/`: a path relative to a
base URL). -/
theorem metadataPaths_distinct_relative :
    [ProjectIDPath, ZonePath, RegionPath, ConfigIDPath, RolloutStrategyPath,
      ServiceNamePath, KubeEnvPath, GAEServerSoftwarePath, AccessTokenPath,
      IdentityTokenPath].Nodup ∧
    [ProjectIDPath, ZonePath, RegionPath, ConfigIDPath, RolloutStrategyPath,
      ServiceNamePath, KubeEnvPath, GAEServerSoftwarePath, AccessTokenPath,
      IdentityTokenPath].length = 10 ∧
    (∀ p ∈ [ProjectIDPath, ZonePath, RegionPath, ConfigIDPath,
        RolloutStrategyPath, ServiceNamePath, KubeEnvPath,
        GAEServerSoftwarePath, AccessTokenPath, IdentityTokenPath],
      GoString.lit "/computeMetadata/v1/" <+: p ∧ p.head? = some 0x2F) ∧
    (GoString.lit "/computeMetadata/v1/").length = 20 := by
  refine ⟨by decide, rfl, by decide, by decide⟩

/-- Claim C12: `OpenIDDiscoveryCfgURLSuffix` has no trailing slash: the
constant is non-empty and its last byte (which is `n`, `0x6E`) is not `/`
(`0x2F`). -/
theorem OpenIDDiscoveryCfgURLSuffix_no_trailing_slash :
    OpenIDDiscoveryCfgURLSuffix ≠ [] ∧
    0 < OpenIDDiscoveryCfgURLSuffix.length ∧
    OpenIDDiscoveryCfgURLSuffix.getLast? = some 0x6E ∧
    OpenIDDiscoveryCfgURLSuffix.getLast? ≠ some 0x2F ∧
    ¬ (GoString.lit "/" <:+ OpenIDDiscoveryCfgURLSuffix) := by
  refine ⟨by decide, by decide, by decide, by decide, by decide⟩

/-! ## Backend protocol -/

/-- Claim C13: the constants declared for `BackendProtocol` are exactly the
four tags `UNKNOWN`, `HTTP1`, `HTTP2`, `GRPC`, with the `int32` values 0, 1, 2,
3 in that order; the values are pairwise distinct, a value of the type is one
of the tags exactly when it lies in `0 ..= 3`, and the zero value of the type
is `UNKNOWN`. -/
theorem BackendProtocol_tags :
    BackendProtocol.declared = [UNKNOWN, HTTP1, HTTP2, GRPC] ∧
    BackendProtocol.declared.length = 4 ∧
    (UNKNOWN = 0 ∧ HTTP1 = 1 ∧ HTTP2 = 2 ∧ GRPC = 3) ∧
    BackendProtocol.declared.Nodup ∧
    BackendProtocol.declared.Pairwise (fun a b => a < b) ∧
    (∀ v ∈ BackendProtocol.declared, fitsInt32 v = true) ∧
    (∀ v : BackendProtocol, v ∈ BackendProtocol.declared ↔ 0 ≤ v ∧ v ≤ 3) ∧
    BackendProtocol.zeroValue = UNKNOWN := by
  refine ⟨rfl, rfl, ⟨by decide, by decide, by decide, by decide⟩, by decide,
    by decide, by decide, ?_, by decide⟩
  have key : ∀ x : Int,
      (x = ((0 : Nat) : Int) ∨ x = ((1 : Nat) : Int) ∨ x = ((2 : Nat) : Int) ∨
        x = ((3 : Nat) : Int)) ↔ 0 ≤ x ∧ x ≤ 3 := by
    intro x
    omega
  intro v
  simp only [BackendProtocol.declared, UNKNOWN, HTTP1, HTTP2, GRPC, iota,
    List.mem_cons, List.mem_singleton, List.not_mem_nil, or_false]
  exact key v

/-! ## Further properties of span-name truncation -/

/-- Claim C14: `MaybeTruncateSpanName` is idempotent: applying it to its own
result returns that result again. -/
theorem MaybeTruncateSpanName_idempotent (s : GoString) :
    ∃ r, MaybeTruncateSpanName s = some r ∧
      MaybeTruncateSpanName r = some r ∧
      (MaybeTruncateSpanName s).bind MaybeTruncateSpanName =
        MaybeTruncateSpanName s := by
  by_cases h : s.length ≤ 128
  · have hs := MaybeTruncateSpanName_of_le s h
    refine ⟨s, hs, hs, ?_⟩
    rw [hs, Option.some_bind, hs]
  · have hgt : 128 < s.length := by omega
    have hs := MaybeTruncateSpanName_of_gt s hgt
    have hr := MaybeTruncateSpanName_of_le (s.take 125 ++ [46, 46, 46])
      (le_of_eq (length_take_append_dots s hgt))
    refine ⟨_, hs, hr, ?_⟩
    rw [hs, Option.some_bind, hr]

/-- Claim C15: `MaybeTruncateSpanName` returns a value for every input and its
slice expression never panics. Within the limit the argument is returned and
no slice is taken; the slice `spanName[:SpanNameMaxByteNum-3]` is taken only
when the guard fails, that is when the argument has more than 128 bytes, and
then its bound 125 is non-negative and at most the length, so the slice yields
the first 125 bytes. (On an argument shorter than 125 bytes the same slice
would panic; the guard keeps it from being evaluated.) -/
theorem MaybeTruncateSpanName_total (s : GoString) :
    (MaybeTruncateSpanName s).isSome = true ∧
    ((s.length : Int) ≤ SpanNameMaxByteNum → MaybeTruncateSpanName s = some s) ∧
    (¬ (s.length : Int) ≤ SpanNameMaxByteNum →
      128 < s.length ∧
      SpanNameMaxByteNum - 3 = 125 ∧
      0 ≤ SpanNameMaxByteNum - 3 ∧
      SpanNameMaxByteNum - 3 ≤ (s.length : Int) ∧
      GoString.sliceTo s (SpanNameMaxByteNum - 3) = some (s.take 125) ∧
      MaybeTruncateSpanName s =
        (GoString.sliceTo s (SpanNameMaxByteNum - 3)).map
          (fun head => head ++ GoString.lit "...")) ∧
    (s.length < 125 → GoString.sliceTo s (SpanNameMaxByteNum - 3) = none) := by
  have h125 : SpanNameMaxByteNum - 3 = ((125 : Nat) : Int) := by
    unfold SpanNameMaxByteNum
    norm_num
  refine ⟨?_, ?_, ?_, ?_⟩
  · by_cases h : s.length ≤ 128
    · rw [MaybeTruncateSpanName_of_le s h]
      rfl
    · rw [MaybeTruncateSpanName_of_gt s (by omega)]
      rfl
  · intro h
    unfold SpanNameMaxByteNum at h
    exact MaybeTruncateSpanName_of_le s (by omega)
  · intro h
    unfold SpanNameMaxByteNum at h
    have hgt : 128 < s.length := by omega
    have hslice : GoString.sliceTo s (SpanNameMaxByteNum - 3) = some (s.take 125) := by
      rw [h125]
      exact GoString.sliceTo_natCast s 125 (by omega)
    refine ⟨hgt, ?_, ?_, ?_, hslice, ?_⟩
    · rw [h125]
      norm_num
    · rw [h125]
      omega
    · rw [h125]
      omega
    · rw [hslice, MaybeTruncateSpanName_of_gt s hgt, GoString.lit_dots]
      rfl
  · intro h
    have hnot : ¬ (0 ≤ SpanNameMaxByteNum - 3 ∧ SpanNameMaxByteNum - 3 ≤ (s.length : Int)) := by
      rw [h125]
      omega
    unfold GoString.sliceTo
    rw [if_neg hnot]

/-- Witness of C15 at a string of 130 bytes, where the guard fails and the
slice is taken, and at the empty string, where the slice would panic and is
not taken. -/
theorem MaybeTruncateSpanName_total_witness :
    (¬ (((List.replicate 130 (97 : UInt8)).length : Int) ≤ SpanNameMaxByteNum) ∧
      (MaybeTruncateSpanName (List.replicate 130 97)).isSome = true ∧
      GoString.sliceTo (List.replicate 130 97) (SpanNameMaxByteNum - 3) =
        some ((List.replicate 130 (97 : UInt8)).take 125)) ∧
    ((([] : GoString).length : Int) ≤ SpanNameMaxByteNum ∧
      ([] : GoString).length < 125 ∧
      MaybeTruncateSpanName [] = some [] ∧
      GoString.sliceTo [] (SpanNameMaxByteNum - 3) = none) :=
  have hg : ¬ (((List.replicate 130 (97 : UInt8)).length : Int) ≤ SpanNameMaxByteNum) := by
    rw [List.length_replicate]
    decide
  ⟨⟨hg, (MaybeTruncateSpanName_total (List.replicate 130 97)).1,
     ((MaybeTruncateSpanName_total (List.replicate 130 97)).2.2.1 hg).2.2.2.2.1⟩,
   ⟨by decide, by decide,
     (MaybeTruncateSpanName_total []).2.1 (by decide),
     (MaybeTruncateSpanName_total []).2.2.2 (by decide)⟩⟩

set_option maxRecDepth 100000 in
/-- Claim C16: `MaybeTruncateSpanName` does not preserve UTF-8 well-formedness.
The name `twoByteName` (65 times the two-byte character `é`, bytes `C3 A9`,
130 bytes) is well-formed UTF-8, and its truncation is not: the cut at byte
offset 125 falls between the lead byte `C3` at offset 124 and its continuation
byte `A9` at offset 125, so the result holds `C3` followed by `.`. -/
theorem MaybeTruncateSpanName_breaks_utf8 :
    (utf8.ValidString (GoString.lit twoByteName) = true ∧
      twoByteName.length = 65 ∧
      (GoString.lit twoByteName).length = 130 ∧
      (GoString.lit twoByteName).get? 124 = some 0xC3 ∧
      (GoString.lit twoByteName).get? 125 = some 0xA9) ∧
    (∃ r, MaybeTruncateSpanName (GoString.lit twoByteName) = some r ∧
      utf8.ValidString r = false ∧
      r.get? 124 = some 0xC3 ∧ r.get? 125 = some 0x2E) ∧
    (∃ s r : GoString, utf8.ValidString s = true ∧
      MaybeTruncateSpanName s = some r ∧ utf8.ValidString r = false) := by
  have hlen : 128 < (GoString.lit twoByteName).length := by
    rw [twoByteName_sizes.2]
    decide
  have hr := MaybeTruncateSpanName_of_gt (GoString.lit twoByteName) hlen
  have hvalid : utf8.ValidString (GoString.lit twoByteName) = true := by decide
  have hbad : utf8.ValidString
      ((GoString.lit twoByteName).take 125 ++ [46, 46, 46]) = false := by decide
  refine ⟨⟨hvalid, twoByteName_sizes.1, twoByteName_sizes.2, by decide, by decide⟩,
    ⟨_, hr, hbad, by decide, by decide⟩, ⟨_, _, hvalid, hr, hbad⟩⟩

end util
